import Mathlib

/-!
Shallow embedding of `src/core/metrics.cc` (Triton inference-server metrics
subsystem): the GPU sampler loop with its per-(device, metric-kind) failure
counters, the energy delta computation, device enumeration, the lifecycle
gate `EnableGPUMetrics`, and `UUIDForCudaDevice`.

Hardware/NVML/CUDA calls are modelled by oracles: an `Option` value is
`some v` when the underlying call succeeds with raw value `v` and `none`
when it fails.  C++ `unsigned long long` arithmetic on energy readings is
modelled exactly as arithmetic modulo `2 ^ 64`.  `double` stores are
modelled over `ℚ` (the claims under scrutiny involve only exact decimal
arithmetic).
-/

namespace Metrics

/-- The five metric kinds the sampler reads per device, in the order the
sampler loop attempts them. -/
inductive MetricKind where
  | powerLimit
  | powerUsage
  | energy
  | utilization
  | memory
deriving DecidableEq, Repr

/-- One sampling round's hardware-readout outcomes for a single device:
`some raw` models an NVML call returning `NVML_SUCCESS` with raw value
`raw`, `none` models a failing call.  `mem` carries `(total, used)` bytes. -/
structure DevOracle where
  powerLimit : Option Nat
  powerUsage : Option Nat
  energy : Option Nat
  util : Option Nat
  mem : Option (Nat × Nat)
deriving DecidableEq, Repr

/-- Per-device sampler state: the five consecutive-failure counters, the
cached raw energy reading `last_energy`, and the current values of the
per-device metric instances written by the sampler. -/
structure DevState where
  power_limit_fail_cnt : Nat
  power_usage_fail_cnt : Nat
  energy_fail_cnt : Nat
  util_fail_cnt : Nat
  mem_fail_cnt : Nat
  last_energy : Nat
  gpu_power_limit : ℚ
  gpu_power_usage : ℚ
  gpu_energy_consumption : ℚ
  gpu_utilization : ℚ
  gpu_memory_total : ℚ
  gpu_memory_used : ℚ
deriving DecidableEq, Repr

/-- `constexpr int fail_threshold = 3;` -/
def fail_threshold : Nat := 3

/-- Modulus of C++ `unsigned long long`. -/
def U64 : Nat := 2 ^ 64

/-- Fresh per-device state at sampler start: all failure counters zero and
`last_energy[didx] = 0`; gauges start at the registry default 0. -/
def initDevState : DevState :=
  { power_limit_fail_cnt := 0, power_usage_fail_cnt := 0, energy_fail_cnt := 0,
    util_fail_cnt := 0, mem_fail_cnt := 0, last_energy := 0,
    gpu_power_limit := 0, gpu_power_usage := 0, gpu_energy_consumption := 0,
    gpu_utilization := 0, gpu_memory_total := 0, gpu_memory_used := 0 }

/-- Power-limit block of the sampler round: guarded by
`power_limit_fail_cnt[didx] < fail_threshold`; on success the counter
resets and the gauge is set to `(double)power_limit * 0.001`; on failure
`power_limit` is forced to 0 (so the gauge is set to 0) and the counter
is incremented. -/
def samplePowerLimit (s : DevState) (r : Option Nat) : DevState :=
  if s.power_limit_fail_cnt < fail_threshold then
    match r with
    | some power_limit =>
        { s with power_limit_fail_cnt := 0,
                 gpu_power_limit := (power_limit : ℚ) * (1 / 1000) }
    | none =>
        { s with power_limit_fail_cnt := s.power_limit_fail_cnt + 1,
                 gpu_power_limit := 0 }
  else s

/-- Power-usage block: same shape as the power-limit block, gauge set to
`(double)power_usage * 0.001`. -/
def samplePowerUsage (s : DevState) (r : Option Nat) : DevState :=
  if s.power_usage_fail_cnt < fail_threshold then
    match r with
    | some power_usage =>
        { s with power_usage_fail_cnt := 0,
                 gpu_power_usage := (power_usage : ℚ) * (1 / 1000) }
    | none =>
        { s with power_usage_fail_cnt := s.power_usage_fail_cnt + 1,
                 gpu_power_usage := 0 }
  else s

/-- Energy block: on success, if `last_energy[didx] == 0` the cache is
seeded with the new reading before the delta is computed; the counter
instance is incremented by `(double)(energy - last_energy[didx]) * 0.001`
(`unsigned long long` subtraction, hence modulo `2 ^ 64`), and
`last_energy[didx]` is set to the new reading.  On failure only the
failure counter is incremented (no write to the metric). -/
def sampleEnergy (s : DevState) (r : Option Nat) : DevState :=
  if s.energy_fail_cnt < fail_threshold then
    match r with
    | some e =>
        let energy := e % U64
        let last := if s.last_energy == 0 then energy else s.last_energy
        { s with energy_fail_cnt := 0,
                 gpu_energy_consumption := s.gpu_energy_consumption +
                   (((energy + U64 - last) % U64 : Nat) : ℚ) * (1 / 1000),
                 last_energy := energy }
    | none =>
        { s with energy_fail_cnt := s.energy_fail_cnt + 1 }
  else s

/-- Utilization block: on success the gauge is set to
`(double)util.gpu * 0.01`; on failure `util.gpu` is forced to 0 (gauge set
to 0) and the counter incremented. -/
def sampleUtil (s : DevState) (r : Option Nat) : DevState :=
  if s.util_fail_cnt < fail_threshold then
    match r with
    | some util =>
        { s with util_fail_cnt := 0,
                 gpu_utilization := (util : ℚ) * (1 / 100) }
    | none =>
        { s with util_fail_cnt := s.util_fail_cnt + 1,
                 gpu_utilization := 0 }
  else s

/-- Memory block: on success the two gauges are set to the raw byte counts
`mem.total` and `mem.used` with no transform; on failure both are forced
to 0 and the counter incremented. -/
def sampleMem (s : DevState) (r : Option (Nat × Nat)) : DevState :=
  if s.mem_fail_cnt < fail_threshold then
    match r with
    | some mem =>
        { s with mem_fail_cnt := 0,
                 gpu_memory_total := (mem.1 : ℚ),
                 gpu_memory_used := (mem.2 : ℚ) }
    | none =>
        { s with mem_fail_cnt := s.mem_fail_cnt + 1,
                 gpu_memory_total := 0,
                 gpu_memory_used := 0 }
  else s

/-- One sampling round for one device: the five blocks in source order. -/
def sampleDevice (s : DevState) (o : DevOracle) : DevState :=
  sampleMem
    (sampleUtil
      (sampleEnergy
        (samplePowerUsage
          (samplePowerLimit s o.powerLimit) o.powerUsage) o.energy) o.util)
    o.mem

/-- One sampling round over all tracked devices (`for didx in 0..dcnt`):
device `didx` is sampled against its own oracle entry. -/
def sampleRound (ss : List DevState) (os : List DevOracle) : List DevState :=
  List.zipWith sampleDevice ss os

/-- Iterate sampling rounds for one device over a list of round oracles. -/
def runRounds (s : DevState) (os : List DevOracle) : DevState :=
  os.foldl sampleDevice s

/-- Iterate the energy block alone over a list of successful raw readings. -/
def runEnergy (s : DevState) (rs : List Nat) : DevState :=
  rs.foldl (fun t r => sampleEnergy t (some r)) s

/-- The consecutive-failure counter of a metric kind. -/
def getCnt : MetricKind → DevState → Nat
  | .powerLimit, s => s.power_limit_fail_cnt
  | .powerUsage, s => s.power_usage_fail_cnt
  | .energy, s => s.energy_fail_cnt
  | .utilization, s => s.util_fail_cnt
  | .memory, s => s.mem_fail_cnt

/-- Whether the round's oracle reports success for a metric kind. -/
def oracleOk : MetricKind → DevOracle → Bool
  | .powerLimit, o => o.powerLimit.isSome
  | .powerUsage, o => o.powerUsage.isSome
  | .energy, o => o.energy.isSome
  | .utilization, o => o.util.isSome
  | .memory, o => o.mem.isSome

/-- All sampler-written state belonging to a metric kind (its metric
instances, plus the energy cache for the energy kind). -/
def gaugesOf : MetricKind → DevState → List ℚ
  | .powerLimit, s => [s.gpu_power_limit]
  | .powerUsage, s => [s.gpu_power_usage]
  | .energy, s => [s.gpu_energy_consumption, (s.last_energy : ℚ)]
  | .utilization, s => [s.gpu_utilization]
  | .memory, s => [s.gpu_memory_total, s.gpu_memory_used]

@[simp] lemma samplePowerLimit_power_usage_fail_cnt (s : DevState) (r : Option Nat) :
    (samplePowerLimit s r).power_usage_fail_cnt = s.power_usage_fail_cnt := by
  unfold samplePowerLimit
  split
  · cases r <;> rfl
  · rfl

@[simp] lemma samplePowerLimit_energy_fail_cnt (s : DevState) (r : Option Nat) :
    (samplePowerLimit s r).energy_fail_cnt = s.energy_fail_cnt := by
  unfold samplePowerLimit
  split
  · cases r <;> rfl
  · rfl

@[simp] lemma samplePowerLimit_util_fail_cnt (s : DevState) (r : Option Nat) :
    (samplePowerLimit s r).util_fail_cnt = s.util_fail_cnt := by
  unfold samplePowerLimit
  split
  · cases r <;> rfl
  · rfl

@[simp] lemma samplePowerLimit_mem_fail_cnt (s : DevState) (r : Option Nat) :
    (samplePowerLimit s r).mem_fail_cnt = s.mem_fail_cnt := by
  unfold samplePowerLimit
  split
  · cases r <;> rfl
  · rfl

@[simp] lemma samplePowerLimit_last_energy (s : DevState) (r : Option Nat) :
    (samplePowerLimit s r).last_energy = s.last_energy := by
  unfold samplePowerLimit
  split
  · cases r <;> rfl
  · rfl

@[simp] lemma samplePowerLimit_gpu_power_usage (s : DevState) (r : Option Nat) :
    (samplePowerLimit s r).gpu_power_usage = s.gpu_power_usage := by
  unfold samplePowerLimit
  split
  · cases r <;> rfl
  · rfl

@[simp] lemma samplePowerLimit_gpu_energy_consumption (s : DevState) (r : Option Nat) :
    (samplePowerLimit s r).gpu_energy_consumption = s.gpu_energy_consumption := by
  unfold samplePowerLimit
  split
  · cases r <;> rfl
  · rfl

@[simp] lemma samplePowerLimit_gpu_utilization (s : DevState) (r : Option Nat) :
    (samplePowerLimit s r).gpu_utilization = s.gpu_utilization := by
  unfold samplePowerLimit
  split
  · cases r <;> rfl
  · rfl

@[simp] lemma samplePowerLimit_gpu_memory_total (s : DevState) (r : Option Nat) :
    (samplePowerLimit s r).gpu_memory_total = s.gpu_memory_total := by
  unfold samplePowerLimit
  split
  · cases r <;> rfl
  · rfl

@[simp] lemma samplePowerLimit_gpu_memory_used (s : DevState) (r : Option Nat) :
    (samplePowerLimit s r).gpu_memory_used = s.gpu_memory_used := by
  unfold samplePowerLimit
  split
  · cases r <;> rfl
  · rfl

@[simp] lemma samplePowerUsage_power_limit_fail_cnt (s : DevState) (r : Option Nat) :
    (samplePowerUsage s r).power_limit_fail_cnt = s.power_limit_fail_cnt := by
  unfold samplePowerUsage
  split
  · cases r <;> rfl
  · rfl

@[simp] lemma samplePowerUsage_energy_fail_cnt (s : DevState) (r : Option Nat) :
    (samplePowerUsage s r).energy_fail_cnt = s.energy_fail_cnt := by
  unfold samplePowerUsage
  split
  · cases r <;> rfl
  · rfl

@[simp] lemma samplePowerUsage_util_fail_cnt (s : DevState) (r : Option Nat) :
    (samplePowerUsage s r).util_fail_cnt = s.util_fail_cnt := by
  unfold samplePowerUsage
  split
  · cases r <;> rfl
  · rfl

@[simp] lemma samplePowerUsage_mem_fail_cnt (s : DevState) (r : Option Nat) :
    (samplePowerUsage s r).mem_fail_cnt = s.mem_fail_cnt := by
  unfold samplePowerUsage
  split
  · cases r <;> rfl
  · rfl

@[simp] lemma samplePowerUsage_last_energy (s : DevState) (r : Option Nat) :
    (samplePowerUsage s r).last_energy = s.last_energy := by
  unfold samplePowerUsage
  split
  · cases r <;> rfl
  · rfl

@[simp] lemma samplePowerUsage_gpu_power_limit (s : DevState) (r : Option Nat) :
    (samplePowerUsage s r).gpu_power_limit = s.gpu_power_limit := by
  unfold samplePowerUsage
  split
  · cases r <;> rfl
  · rfl

@[simp] lemma samplePowerUsage_gpu_energy_consumption (s : DevState) (r : Option Nat) :
    (samplePowerUsage s r).gpu_energy_consumption = s.gpu_energy_consumption := by
  unfold samplePowerUsage
  split
  · cases r <;> rfl
  · rfl

@[simp] lemma samplePowerUsage_gpu_utilization (s : DevState) (r : Option Nat) :
    (samplePowerUsage s r).gpu_utilization = s.gpu_utilization := by
  unfold samplePowerUsage
  split
  · cases r <;> rfl
  · rfl

@[simp] lemma samplePowerUsage_gpu_memory_total (s : DevState) (r : Option Nat) :
    (samplePowerUsage s r).gpu_memory_total = s.gpu_memory_total := by
  unfold samplePowerUsage
  split
  · cases r <;> rfl
  · rfl

@[simp] lemma samplePowerUsage_gpu_memory_used (s : DevState) (r : Option Nat) :
    (samplePowerUsage s r).gpu_memory_used = s.gpu_memory_used := by
  unfold samplePowerUsage
  split
  · cases r <;> rfl
  · rfl

@[simp] lemma sampleEnergy_power_limit_fail_cnt (s : DevState) (r : Option Nat) :
    (sampleEnergy s r).power_limit_fail_cnt = s.power_limit_fail_cnt := by
  unfold sampleEnergy
  split
  · cases r <;> rfl
  · rfl

@[simp] lemma sampleEnergy_power_usage_fail_cnt (s : DevState) (r : Option Nat) :
    (sampleEnergy s r).power_usage_fail_cnt = s.power_usage_fail_cnt := by
  unfold sampleEnergy
  split
  · cases r <;> rfl
  · rfl

@[simp] lemma sampleEnergy_util_fail_cnt (s : DevState) (r : Option Nat) :
    (sampleEnergy s r).util_fail_cnt = s.util_fail_cnt := by
  unfold sampleEnergy
  split
  · cases r <;> rfl
  · rfl

@[simp] lemma sampleEnergy_mem_fail_cnt (s : DevState) (r : Option Nat) :
    (sampleEnergy s r).mem_fail_cnt = s.mem_fail_cnt := by
  unfold sampleEnergy
  split
  · cases r <;> rfl
  · rfl

@[simp] lemma sampleEnergy_gpu_power_limit (s : DevState) (r : Option Nat) :
    (sampleEnergy s r).gpu_power_limit = s.gpu_power_limit := by
  unfold sampleEnergy
  split
  · cases r <;> rfl
  · rfl

@[simp] lemma sampleEnergy_gpu_power_usage (s : DevState) (r : Option Nat) :
    (sampleEnergy s r).gpu_power_usage = s.gpu_power_usage := by
  unfold sampleEnergy
  split
  · cases r <;> rfl
  · rfl

@[simp] lemma sampleEnergy_gpu_utilization (s : DevState) (r : Option Nat) :
    (sampleEnergy s r).gpu_utilization = s.gpu_utilization := by
  unfold sampleEnergy
  split
  · cases r <;> rfl
  · rfl

@[simp] lemma sampleEnergy_gpu_memory_total (s : DevState) (r : Option Nat) :
    (sampleEnergy s r).gpu_memory_total = s.gpu_memory_total := by
  unfold sampleEnergy
  split
  · cases r <;> rfl
  · rfl

@[simp] lemma sampleEnergy_gpu_memory_used (s : DevState) (r : Option Nat) :
    (sampleEnergy s r).gpu_memory_used = s.gpu_memory_used := by
  unfold sampleEnergy
  split
  · cases r <;> rfl
  · rfl

@[simp] lemma sampleUtil_power_limit_fail_cnt (s : DevState) (r : Option Nat) :
    (sampleUtil s r).power_limit_fail_cnt = s.power_limit_fail_cnt := by
  unfold sampleUtil
  split
  · cases r <;> rfl
  · rfl

@[simp] lemma sampleUtil_power_usage_fail_cnt (s : DevState) (r : Option Nat) :
    (sampleUtil s r).power_usage_fail_cnt = s.power_usage_fail_cnt := by
  unfold sampleUtil
  split
  · cases r <;> rfl
  · rfl

@[simp] lemma sampleUtil_energy_fail_cnt (s : DevState) (r : Option Nat) :
    (sampleUtil s r).energy_fail_cnt = s.energy_fail_cnt := by
  unfold sampleUtil
  split
  · cases r <;> rfl
  · rfl

@[simp] lemma sampleUtil_mem_fail_cnt (s : DevState) (r : Option Nat) :
    (sampleUtil s r).mem_fail_cnt = s.mem_fail_cnt := by
  unfold sampleUtil
  split
  · cases r <;> rfl
  · rfl

@[simp] lemma sampleUtil_last_energy (s : DevState) (r : Option Nat) :
    (sampleUtil s r).last_energy = s.last_energy := by
  unfold sampleUtil
  split
  · cases r <;> rfl
  · rfl

@[simp] lemma sampleUtil_gpu_power_limit (s : DevState) (r : Option Nat) :
    (sampleUtil s r).gpu_power_limit = s.gpu_power_limit := by
  unfold sampleUtil
  split
  · cases r <;> rfl
  · rfl

@[simp] lemma sampleUtil_gpu_power_usage (s : DevState) (r : Option Nat) :
    (sampleUtil s r).gpu_power_usage = s.gpu_power_usage := by
  unfold sampleUtil
  split
  · cases r <;> rfl
  · rfl

@[simp] lemma sampleUtil_gpu_energy_consumption (s : DevState) (r : Option Nat) :
    (sampleUtil s r).gpu_energy_consumption = s.gpu_energy_consumption := by
  unfold sampleUtil
  split
  · cases r <;> rfl
  · rfl

@[simp] lemma sampleUtil_gpu_memory_total (s : DevState) (r : Option Nat) :
    (sampleUtil s r).gpu_memory_total = s.gpu_memory_total := by
  unfold sampleUtil
  split
  · cases r <;> rfl
  · rfl

@[simp] lemma sampleUtil_gpu_memory_used (s : DevState) (r : Option Nat) :
    (sampleUtil s r).gpu_memory_used = s.gpu_memory_used := by
  unfold sampleUtil
  split
  · cases r <;> rfl
  · rfl

@[simp] lemma sampleMem_power_limit_fail_cnt (s : DevState) (r : Option (Nat × Nat)) :
    (sampleMem s r).power_limit_fail_cnt = s.power_limit_fail_cnt := by
  unfold sampleMem
  split
  · cases r <;> rfl
  · rfl

@[simp] lemma sampleMem_power_usage_fail_cnt (s : DevState) (r : Option (Nat × Nat)) :
    (sampleMem s r).power_usage_fail_cnt = s.power_usage_fail_cnt := by
  unfold sampleMem
  split
  · cases r <;> rfl
  · rfl

@[simp] lemma sampleMem_energy_fail_cnt (s : DevState) (r : Option (Nat × Nat)) :
    (sampleMem s r).energy_fail_cnt = s.energy_fail_cnt := by
  unfold sampleMem
  split
  · cases r <;> rfl
  · rfl

@[simp] lemma sampleMem_util_fail_cnt (s : DevState) (r : Option (Nat × Nat)) :
    (sampleMem s r).util_fail_cnt = s.util_fail_cnt := by
  unfold sampleMem
  split
  · cases r <;> rfl
  · rfl

@[simp] lemma sampleMem_last_energy (s : DevState) (r : Option (Nat × Nat)) :
    (sampleMem s r).last_energy = s.last_energy := by
  unfold sampleMem
  split
  · cases r <;> rfl
  · rfl

@[simp] lemma sampleMem_gpu_power_limit (s : DevState) (r : Option (Nat × Nat)) :
    (sampleMem s r).gpu_power_limit = s.gpu_power_limit := by
  unfold sampleMem
  split
  · cases r <;> rfl
  · rfl

@[simp] lemma sampleMem_gpu_power_usage (s : DevState) (r : Option (Nat × Nat)) :
    (sampleMem s r).gpu_power_usage = s.gpu_power_usage := by
  unfold sampleMem
  split
  · cases r <;> rfl
  · rfl

@[simp] lemma sampleMem_gpu_energy_consumption (s : DevState) (r : Option (Nat × Nat)) :
    (sampleMem s r).gpu_energy_consumption = s.gpu_energy_consumption := by
  unfold sampleMem
  split
  · cases r <;> rfl
  · rfl

@[simp] lemma sampleMem_gpu_utilization (s : DevState) (r : Option (Nat × Nat)) :
    (sampleMem s r).gpu_utilization = s.gpu_utilization := by
  unfold sampleMem
  split
  · cases r <;> rfl
  · rfl


/-- Own-counter dynamics of the power-limit block. -/
@[simp] lemma samplePowerLimit_cnt (s : DevState) (r : Option Nat) :
    (samplePowerLimit s r).power_limit_fail_cnt =
      if s.power_limit_fail_cnt < fail_threshold then
        (if r.isSome then 0 else s.power_limit_fail_cnt + 1)
      else s.power_limit_fail_cnt := by
  unfold samplePowerLimit
  split
  · cases r <;> simp_all
  · simp_all

/-- Own-counter dynamics of the power-usage block. -/
@[simp] lemma samplePowerUsage_cnt (s : DevState) (r : Option Nat) :
    (samplePowerUsage s r).power_usage_fail_cnt =
      if s.power_usage_fail_cnt < fail_threshold then
        (if r.isSome then 0 else s.power_usage_fail_cnt + 1)
      else s.power_usage_fail_cnt := by
  unfold samplePowerUsage
  split
  · cases r <;> simp_all
  · simp_all

/-- Own-counter dynamics of the energy block. -/
@[simp] lemma sampleEnergy_cnt (s : DevState) (r : Option Nat) :
    (sampleEnergy s r).energy_fail_cnt =
      if s.energy_fail_cnt < fail_threshold then
        (if r.isSome then 0 else s.energy_fail_cnt + 1)
      else s.energy_fail_cnt := by
  unfold sampleEnergy
  split
  · cases r <;> simp_all
  · simp_all

/-- Own-counter dynamics of the utilization block. -/
@[simp] lemma sampleUtil_cnt (s : DevState) (r : Option Nat) :
    (sampleUtil s r).util_fail_cnt =
      if s.util_fail_cnt < fail_threshold then
        (if r.isSome then 0 else s.util_fail_cnt + 1)
      else s.util_fail_cnt := by
  unfold sampleUtil
  split
  · cases r <;> simp_all
  · simp_all

/-- Own-counter dynamics of the memory block. -/
@[simp] lemma sampleMem_cnt (s : DevState) (r : Option (Nat × Nat)) :
    (sampleMem s r).mem_fail_cnt =
      if s.mem_fail_cnt < fail_threshold then
        (if r.isSome then 0 else s.mem_fail_cnt + 1)
      else s.mem_fail_cnt := by
  unfold sampleMem
  split
  · cases r <;> simp_all
  · simp_all

/-- A tripped power-limit breaker makes the whole block a no-op. -/
lemma samplePowerLimit_tripped (s : DevState) (r : Option Nat)
    (h : fail_threshold ≤ s.power_limit_fail_cnt) : samplePowerLimit s r = s := by
  unfold samplePowerLimit
  rw [if_neg (by omega)]

/-- A tripped power-usage breaker makes the whole block a no-op. -/
lemma samplePowerUsage_tripped (s : DevState) (r : Option Nat)
    (h : fail_threshold ≤ s.power_usage_fail_cnt) : samplePowerUsage s r = s := by
  unfold samplePowerUsage
  rw [if_neg (by omega)]

/-- A tripped energy breaker makes the whole block a no-op. -/
lemma sampleEnergy_tripped (s : DevState) (r : Option Nat)
    (h : fail_threshold ≤ s.energy_fail_cnt) : sampleEnergy s r = s := by
  unfold sampleEnergy
  rw [if_neg (by omega)]

/-- A tripped utilization breaker makes the whole block a no-op. -/
lemma sampleUtil_tripped (s : DevState) (r : Option Nat)
    (h : fail_threshold ≤ s.util_fail_cnt) : sampleUtil s r = s := by
  unfold sampleUtil
  rw [if_neg (by omega)]

/-- A tripped memory breaker makes the whole block a no-op. -/
lemma sampleMem_tripped (s : DevState) (r : Option (Nat × Nat))
    (h : fail_threshold ≤ s.mem_fail_cnt) : sampleMem s r = s := by
  unfold sampleMem
  rw [if_neg (by omega)]

/-- Counter dynamics of one full device round, per metric kind: the kind's
failure counter is reset to 0 on success, incremented on failure, and
untouched (read skipped) once at the threshold; it depends only on its own
previous value and its own readout outcome. -/
lemma getCnt_sampleDevice (s : DevState) (o : DevOracle) (k : MetricKind) :
    getCnt k (sampleDevice s o) =
      if getCnt k s < fail_threshold then
        (if oracleOk k o then 0 else getCnt k s + 1)
      else getCnt k s := by
  cases k <;> simp [sampleDevice, getCnt, oracleOk]

/-- A device round leaves a tripped kind's counter and written state
untouched: the read is skipped. -/
lemma sampleDevice_frozen (s : DevState) (o : DevOracle) (k : MetricKind)
    (h : fail_threshold ≤ getCnt k s) :
    getCnt k (sampleDevice s o) = getCnt k s ∧
      gaugesOf k (sampleDevice s o) = gaugesOf k s := by
  cases k with
  | powerLimit =>
      unfold sampleDevice
      rw [samplePowerLimit_tripped _ _ h]
      exact ⟨by simp [getCnt], by simp [gaugesOf]⟩
  | powerUsage =>
      unfold sampleDevice
      rw [samplePowerUsage_tripped _ _ (by simpa [getCnt] using h)]
      exact ⟨by simp [getCnt], by simp [gaugesOf]⟩
  | energy =>
      unfold sampleDevice
      rw [sampleEnergy_tripped _ _ (by simpa [getCnt] using h)]
      exact ⟨by simp [getCnt], by simp [gaugesOf]⟩
  | utilization =>
      unfold sampleDevice
      rw [sampleUtil_tripped _ _ (by simpa [getCnt] using h)]
      exact ⟨by simp [getCnt], by simp [gaugesOf]⟩
  | memory =>
      unfold sampleDevice
      rw [sampleMem_tripped _ _ (by simpa [getCnt] using h)]
      exact ⟨by simp [getCnt], by simp [gaugesOf]⟩

/-- Permanence: from any state whose kind-k counter has reached the
threshold, any number of further rounds leaves kind k's counter and
written state exactly as they were. -/
lemma runRounds_frozen (k : MetricKind) (os : List DevOracle) :
    ∀ s : DevState, fail_threshold ≤ getCnt k s →
      getCnt k (runRounds s os) = getCnt k s ∧
        gaugesOf k (runRounds s os) = gaugesOf k s := by
  induction os with
  | nil => exact fun s _ => ⟨rfl, rfl⟩
  | cons o os ih =>
      intro s h
      have hd := sampleDevice_frozen s o k h
      have ht := ih (sampleDevice s o) (by rw [hd.1]; exact h)
      exact ⟨ht.1.trans hd.1, ht.2.trans hd.2⟩

/-- Successful power-limit read writes the gauge in watts. -/
lemma samplePowerLimit_gauge (s : DevState) (p : Nat)
    (h : s.power_limit_fail_cnt < fail_threshold) :
    (samplePowerLimit s (some p)).gpu_power_limit = (p : ℚ) * (1 / 1000) := by
  unfold samplePowerLimit
  rw [if_pos h]

/-- Successful power-usage read writes the gauge in watts. -/
lemma samplePowerUsage_gauge (s : DevState) (p : Nat)
    (h : s.power_usage_fail_cnt < fail_threshold) :
    (samplePowerUsage s (some p)).gpu_power_usage = (p : ℚ) * (1 / 1000) := by
  unfold samplePowerUsage
  rw [if_pos h]

/-- Successful utilization read writes the gauge as a fraction. -/
lemma sampleUtil_gauge (s : DevState) (u : Nat)
    (h : s.util_fail_cnt < fail_threshold) :
    (sampleUtil s (some u)).gpu_utilization = (u : ℚ) * (1 / 100) := by
  unfold sampleUtil
  rw [if_pos h]

/-- Successful memory read writes both gauges as raw byte counts. -/
lemma sampleMem_gauges (s : DevState) (t u : Nat)
    (h : s.mem_fail_cnt < fail_threshold) :
    (sampleMem s (some (t, u))).gpu_memory_total = (t : ℚ) ∧
      (sampleMem s (some (t, u))).gpu_memory_used = (u : ℚ) := by
  unfold sampleMem
  rw [if_pos h]
  exact ⟨rfl, rfl⟩

/-- Full characterization of a successful energy read below the threshold. -/
lemma sampleEnergy_success (s : DevState) (e : Nat)
    (h : s.energy_fail_cnt < fail_threshold) :
    sampleEnergy s (some e) =
      { s with energy_fail_cnt := 0,
               gpu_energy_consumption := s.gpu_energy_consumption +
                 (((e % U64 + U64 -
                     (if s.last_energy == 0 then e % U64 else s.last_energy)) % U64 :
                    Nat) : ℚ) * (1 / 1000),
               last_energy := e % U64 } := by
  unfold sampleEnergy
  rw [if_pos h]

/-- Seeding: a successful energy read against an empty cache (`last_energy
= 0`) updates the cache but adds zero to the exposed counter. -/
lemma sampleEnergy_seed (s : DevState) (e : Nat)
    (h : s.energy_fail_cnt < fail_threshold) (h0 : s.last_energy = 0) :
    (sampleEnergy s (some e)).gpu_energy_consumption = s.gpu_energy_consumption ∧
      (sampleEnergy s (some e)).last_energy = e % U64 ∧
      (sampleEnergy s (some e)).energy_fail_cnt = 0 := by
  rw [sampleEnergy_success s e h]
  refine ⟨?_, rfl, rfl⟩
  have h1 : (e % U64 + U64 -
      (if s.last_energy == 0 then e % U64 else s.last_energy)) % U64 = 0 := by
    rw [h0]
    simp
  rw [h1]
  simp

/-- Delta: a successful energy read against a seeded cache adds
`(current − last) × 0.001` to the exposed counter and updates the cache
(stated for non-decreasing in-range readings, where the `unsigned long
long` subtraction does not wrap). -/
lemma sampleEnergy_delta (s : DevState) (e : Nat)
    (h : s.energy_fail_cnt < fail_threshold) (h0 : s.last_energy ≠ 0)
    (hle : s.last_energy ≤ e) (he : e < U64) :
    (sampleEnergy s (some e)).gpu_energy_consumption =
        s.gpu_energy_consumption + ((e : ℚ) - (s.last_energy : ℚ)) * (1 / 1000) ∧
      (sampleEnergy s (some e)).last_energy = e ∧
      (sampleEnergy s (some e)).energy_fail_cnt = 0 := by
  rw [sampleEnergy_success s e h]
  have hmod : e % U64 = e := Nat.mod_eq_of_lt he
  refine ⟨?_, by simp [hmod], rfl⟩
  have hif : (s.last_energy == 0) = false := by
    simp [h0]
  have h1 : (e % U64 + U64 -
      (if s.last_energy == 0 then e % U64 else s.last_energy)) % U64 =
      e - s.last_energy := by
    rw [hif]
    simp only [Bool.false_eq_true, if_false, hmod]
    have h2 : e + U64 - s.last_energy = (e - s.last_energy) + U64 := by omega
    rw [h2, Nat.add_mod_right, Nat.mod_eq_of_lt (by omega)]
  rw [h1]
  have h3 : ((e - s.last_energy : Nat) : ℚ) = (e : ℚ) - (s.last_energy : ℚ) := by
    push_cast [hle]
    ring
  rw [h3]

/-- Oracle for a round on which every hardware call fails. -/
def oracleAllFail : DevOracle :=
  { powerLimit := none, powerUsage := none, energy := none, util := none, mem := none }

/-- Oracle carrying the spec's concrete raw values: power 125000 mW,
utilization 57 %, plus an energy and a memory reading. -/
def c8oracle : DevOracle :=
  { powerLimit := some 125000, powerUsage := some 125000, energy := some 1000,
    util := some 57, mem := some (16, 8) }

/-- A device state whose power-limit breaker has just tripped. -/
def trippedPL : DevState := { initDevState with power_limit_fail_cnt := 3 }

/-- A device state whose energy cache is seeded with raw value 1000. -/
def seededState : DevState := { initDevState with last_energy := 1000 }

/-- C1: the sampler keeps a per-(device, metric-kind) consecutive-failure
counter that resets to zero on each successful read and increments on each
failed read; once a kind's counter reaches the threshold `fail_threshold =
3`, every later round skips that kind on that device permanently (its
counter and its written metric state never change again), while each kind
evolves only from its own counter and its own readout, and each device in
a round is sampled only against its own oracle entry. -/
theorem c1_circuit_breaker :
    (∀ (s : DevState) (o : DevOracle) (k : MetricKind),
        getCnt k (sampleDevice s o) =
          if getCnt k s < fail_threshold then
            (if oracleOk k o then 0 else getCnt k s + 1)
          else getCnt k s) ∧
      (∀ (k : MetricKind) (os : List DevOracle) (s : DevState),
          fail_threshold ≤ getCnt k s →
            getCnt k (runRounds s os) = getCnt k s ∧
              gaugesOf k (runRounds s os) = gaugesOf k s) ∧
      (∀ (ss : List DevState) (os : List DevOracle) (d : Nat)
          (h1 : d < ss.length) (h2 : d < os.length)
          (h3 : d < (sampleRound ss os).length),
          (sampleRound ss os)[d] = sampleDevice ss[d] os[d]) :=
  ⟨getCnt_sampleDevice,
   fun k os s h => runRounds_frozen k os s h,
   fun _ _ _ _ _ _ => List.getElem_zipWith⟩

/-- C1 witness: a device with a tripped power-limit breaker keeps counter
and gauge frozen over further all-failing rounds, and a one-device round
samples the device against its own oracle. -/
theorem c1_circuit_breaker_witness :
    (getCnt MetricKind.powerLimit (runRounds trippedPL [oracleAllFail, oracleAllFail]) =
        getCnt MetricKind.powerLimit trippedPL ∧
      gaugesOf MetricKind.powerLimit (runRounds trippedPL [oracleAllFail, oracleAllFail]) =
        gaugesOf MetricKind.powerLimit trippedPL) ∧
      (sampleRound [initDevState] [oracleAllFail]).get ⟨0, by decide⟩ =
        sampleDevice initDevState oracleAllFail :=
  ⟨c1_circuit_breaker.2.1 MetricKind.powerLimit [oracleAllFail, oracleAllFail]
      trippedPL (by decide),
   c1_circuit_breaker.2.2 [initDevState] [oracleAllFail] 0 (by decide) (by decide)
      (by decide)⟩

/-- C2 (amended): over successful raw energy readings that are nonzero
and non-decreasing (so the reading never collides with the zero cache
sentinel and the unsigned 64-bit subtraction never wraps), the first
successful sample seeds `last_energy` without incrementing the exposed
counter, every subsequent successful sample increments the counter by
`(current − last) × 0.001`, and the cache is updated to the new raw value
on every success; the spec's sequence [1000, 1500, 1500, 2200] yields
cumulative values [0, 0.5, 0.5, 1.2]. -/
theorem c2_energy_counter :
    (∀ (s : DevState) (e : Nat), s.energy_fail_cnt < fail_threshold →
        s.last_energy = 0 → e < U64 →
          (sampleEnergy s (some e)).gpu_energy_consumption = s.gpu_energy_consumption ∧
            (sampleEnergy s (some e)).last_energy = e) ∧
      (∀ (s : DevState) (e : Nat), s.energy_fail_cnt < fail_threshold →
          s.last_energy ≠ 0 → s.last_energy ≤ e → e < U64 →
            (sampleEnergy s (some e)).gpu_energy_consumption =
                s.gpu_energy_consumption + ((e : ℚ) - (s.last_energy : ℚ)) * (1 / 1000) ∧
              (sampleEnergy s (some e)).last_energy = e) ∧
      ((runEnergy initDevState [1000]).gpu_energy_consumption = 0 ∧
        (runEnergy initDevState [1000, 1500]).gpu_energy_consumption = 1 / 2 ∧
        (runEnergy initDevState [1000, 1500, 1500]).gpu_energy_consumption = 1 / 2 ∧
        (runEnergy initDevState [1000, 1500, 1500, 2200]).gpu_energy_consumption = 6 / 5) := by
  refine ⟨fun s e h h0 he => ?_, fun s e h h0 hle he => ?_,
    by norm_num [runEnergy, sampleEnergy, initDevState, U64, fail_threshold]⟩
  · have hs := sampleEnergy_seed s e h h0
    exact ⟨hs.1, by rw [hs.2.1, Nat.mod_eq_of_lt he]⟩
  · have hd := sampleEnergy_delta s e h h0 hle he
    exact ⟨hd.1, hd.2.1⟩

/-- C2 witness: from a cache seeded at raw 1000, a successful reading of
1500 adds exactly (1500 − 1000) × 0.001 and updates the cache. -/
theorem c2_energy_counter_witness :
    (sampleEnergy seededState (some 1500)).gpu_energy_consumption =
        seededState.gpu_energy_consumption +
          (((1500 : Nat) : ℚ) - (seededState.last_energy : ℚ)) * (1 / 1000) ∧
      (sampleEnergy seededState (some 1500)).last_energy = 1500 :=
  c2_energy_counter.2.1 seededState 1500 (by decide) (by decide) (by decide) (by decide)

/-- C2 counterexample: for the successful raw reading sequence [0, 500]
the claim as stated predicts a cumulative counter of (500 − last_raw) ×
0.001 = 0.5 after the second sample (the first sample seeds last_raw with
0), but the code treats the second sample as a seeding sample again and
the exposed counter stays 0. -/
theorem c2_energy_counter_counterexample :
    (runEnergy initDevState [0, 500]).gpu_energy_consumption ≠
      initDevState.gpu_energy_consumption + (((500 : Nat) : ℚ) - 0) * (1 / 1000) := by
  norm_num [runEnergy, sampleEnergy, initDevState, U64, fail_threshold]

/-- C8: at write time, power limit and power usage gauges are set to the
raw milliwatt value times 0.001, utilization to the raw percentage times
0.01, and memory total/used to the raw byte counts unchanged; in
particular raw 125000 mW is exposed as 125.0 and raw 57 % as 0.57. -/
theorem c8_write_transforms :
    (∀ (s : DevState) (o : DevOracle) (p : Nat),
        s.power_limit_fail_cnt < fail_threshold → o.powerLimit = some p →
          (sampleDevice s o).gpu_power_limit = (p : ℚ) * (1 / 1000)) ∧
      (∀ (s : DevState) (o : DevOracle) (p : Nat),
          s.power_usage_fail_cnt < fail_threshold → o.powerUsage = some p →
            (sampleDevice s o).gpu_power_usage = (p : ℚ) * (1 / 1000)) ∧
      (∀ (s : DevState) (o : DevOracle) (u : Nat),
          s.util_fail_cnt < fail_threshold → o.util = some u →
            (sampleDevice s o).gpu_utilization = (u : ℚ) * (1 / 100)) ∧
      (∀ (s : DevState) (o : DevOracle) (t u : Nat),
          s.mem_fail_cnt < fail_threshold → o.mem = some (t, u) →
            (sampleDevice s o).gpu_memory_total = (t : ℚ) ∧
              (sampleDevice s o).gpu_memory_used = (u : ℚ)) ∧
      (sampleDevice initDevState c8oracle).gpu_power_limit = 125 ∧
      (sampleDevice initDevState c8oracle).gpu_utilization = 57 / 100 := by
  refine ⟨fun s o p h ho => ?_, fun s o p h ho => ?_, fun s o u h ho => ?_,
    fun s o t u h ho => ?_,
    by norm_num [sampleDevice, samplePowerLimit, samplePowerUsage, sampleEnergy,
      sampleUtil, sampleMem, initDevState, U64, fail_threshold, c8oracle],
    by norm_num [sampleDevice, samplePowerLimit, samplePowerUsage, sampleEnergy,
      sampleUtil, sampleMem, initDevState, U64, fail_threshold, c8oracle]⟩
  · simp only [sampleDevice, sampleMem_gpu_power_limit, sampleUtil_gpu_power_limit,
      sampleEnergy_gpu_power_limit, samplePowerUsage_gpu_power_limit]
    rw [ho]
    exact samplePowerLimit_gauge s p h
  · simp only [sampleDevice, sampleMem_gpu_power_usage, sampleUtil_gpu_power_usage,
      sampleEnergy_gpu_power_usage]
    rw [ho]
    exact samplePowerUsage_gauge _ p (by simpa using h)
  · simp only [sampleDevice, sampleMem_gpu_utilization]
    rw [ho]
    exact sampleUtil_gauge _ u (by simpa using h)
  · simp only [sampleDevice]
    rw [ho]
    exact sampleMem_gauges _ t u (by simpa using h)

/-- C8 witness: the transforms applied to the concrete oracle values. -/
theorem c8_write_transforms_witness :
    (sampleDevice initDevState c8oracle).gpu_power_limit =
        ((125000 : Nat) : ℚ) * (1 / 1000) ∧
      (sampleDevice initDevState c8oracle).gpu_utilization =
        ((57 : Nat) : ℚ) * (1 / 100) :=
  ⟨c8_write_transforms.1 initDevState c8oracle 125000 (by decide) rfl,
   c8_write_transforms.2.2.1 initDevState c8oracle 57 (by decide) rfl⟩

/-- C10: the sampler distinguishes a seeded from an unseeded energy cache
solely by the cached raw value being 0: a successful raw reading of 0
results in a cache of 0, a successful read against a zero cache adds
nothing to the exposed counter (it is treated as seeding), and therefore
the successful reading following a raw-0 reading adds no increment even
when it is nonzero. -/
theorem c10_zero_cache_sentinel :
    (∀ s : DevState, s.energy_fail_cnt < fail_threshold →
        (sampleEnergy s (some 0)).last_energy = 0) ∧
      (∀ (s : DevState) (e : Nat), s.energy_fail_cnt < fail_threshold →
          s.last_energy = 0 →
            (sampleEnergy s (some e)).gpu_energy_consumption =
              s.gpu_energy_consumption) ∧
      (∀ (s : DevState) (e : Nat), s.energy_fail_cnt < fail_threshold →
          (sampleEnergy (sampleEnergy s (some 0)) (some e)).gpu_energy_consumption =
            (sampleEnergy s (some 0)).gpu_energy_consumption) := by
  refine ⟨fun s h => ?_, fun s e h h0 => (sampleEnergy_seed s e h h0).1, fun s e h => ?_⟩
  · rw [sampleEnergy_success s 0 h]
    simp
  · have hs1c : (sampleEnergy s (some 0)).energy_fail_cnt = 0 := by
      rw [sampleEnergy_success s 0 h]
    have hs10 : (sampleEnergy s (some 0)).last_energy = 0 := by
      rw [sampleEnergy_success s 0 h]
      simp
    exact (sampleEnergy_seed (sampleEnergy s (some 0)) e
      (by rw [hs1c]; decide) hs10).1

/-- C10 witness: from a cache seeded at 1000, reading 0 zeroes the cache
and the following reading of 500 adds nothing to the exposed counter. -/
theorem c10_zero_cache_sentinel_witness :
    (sampleEnergy (sampleEnergy seededState (some 0)) (some 500)).gpu_energy_consumption =
      (sampleEnergy seededState (some 0)).gpu_energy_consumption :=
  c10_zero_cache_sentinel.2.2 seededState 500 (by decide)

/-- Per-device enumeration outcomes inside `InitializeNvmlMetrics`:
success flags of `cudaGetDeviceProperties`, `cudaDeviceGetPCIBusId` and
`nvmlDeviceGetHandleByPciBusId_v2`, the (log-only) `nvmlDeviceGetName`
flag, and the `nvmlDeviceGetUUID` result (`none` = failure). -/
structure DevEnum where
  props_ok : Bool
  busid_ok : Bool
  handle_ok : Bool
  name_ok : Bool
  uuid : Option String
deriving DecidableEq, Repr

/-- A device appended to the tracked list, labeled by its UUID string. -/
structure TrackedDevice where
  uuid : String
deriving DecidableEq, Repr

/-- Level of a log line (LOG_INFO / LOG_WARNING / LOG_ERROR). -/
inductive LogLevel where
  | info
  | warning
  | error
deriving DecidableEq, Repr

/-- One iteration of the enumeration loop: a failure of properties,
bus-ID or handle resolution skips the device (`continue`); a UUID read
failure falls back to the placeholder "unknown" and the device is still
tracked (the name read only affects logging). -/
def enumerateDevice (e : DevEnum) : Option TrackedDevice :=
  if e.props_ok = false then none
  else if e.busid_ok = false then none
  else if e.handle_ok = false then none
  else some { uuid := e.uuid.getD "unknown" }

/-- Log level emitted for one device index during enumeration: each of
the three skipping failures logs a warning; a tracked device logs info. -/
def enumLog (e : DevEnum) : LogLevel :=
  if e.props_ok = false then LogLevel.warning
  else if e.busid_ok = false then LogLevel.warning
  else if e.handle_ok = false then LogLevel.warning
  else LogLevel.info

/-- Hardware outcomes seen by one run of `InitializeNvmlMetrics`:
whether `nvmlInit` succeeds, whether `cudaGetDeviceCount` succeeds, and
the per-index enumeration outcomes (the device count is the list length). -/
structure InitOracle where
  nvmlInit_ok : Bool
  getDeviceCount_ok : Bool
  devices : List DevEnum
deriving DecidableEq, Repr

/-- Result of `InitializeNvmlMetrics`: its boolean return value, the
devices tracked, whether the sampler thread was started, and the levels
of the log lines it emitted. -/
structure InitResult where
  ok : Bool
  tracked : List TrackedDevice
  sampler_started : Bool
  logs : List LogLevel
deriving DecidableEq, Repr

/-- `Metrics::InitializeNvmlMetrics`: warn and return false if `nvmlInit`
fails; warn and return false if `cudaGetDeviceCount` fails; otherwise
enumerate every device index, recompute the device count as the number of
successfully tracked devices, start the sampler thread only when that
count is positive, and return true. -/
def InitializeNvmlMetrics (o : InitOracle) : InitResult :=
  if o.nvmlInit_ok = false then
    { ok := false, tracked := [], sampler_started := false,
      logs := [LogLevel.warning] }
  else if o.getDeviceCount_ok = false then
    { ok := false, tracked := [], sampler_started := false,
      logs := [LogLevel.warning] }
  else
    let tracked := o.devices.filterMap enumerateDevice
    { ok := true, tracked := tracked,
      sampler_started := decide (0 < tracked.length),
      logs := o.devices.map enumLog }

/-- The singleton state touched by `EnableGPUMetrics`. -/
structure MetricsState where
  gpu_metrics_enabled : Bool
  tracked : List TrackedDevice
  sampler_started : Bool
deriving DecidableEq, Repr

/-- Result of one `EnableGPUMetrics` call: the new singleton state and
whether this call invoked `InitializeNvmlMetrics` (ran discovery). -/
structure EnableResult where
  state : MetricsState
  discovery_ran : Bool
deriving DecidableEq, Repr

/-- `Metrics::EnableGPUMetrics` body under the enabling mutex: early
return if the flag is already set; otherwise run `InitializeNvmlMetrics`
unless the `TRITON_SERVER_CPU_ONLY` environment variable is present
(`cpu_only`); finally set the flag unconditionally — the boolean returned
by `InitializeNvmlMetrics` is ignored. -/
def EnableGPUMetrics (s : MetricsState) (cpu_only : Bool) (o : InitOracle) :
    EnableResult :=
  if s.gpu_metrics_enabled then { state := s, discovery_ran := false }
  else
    let s1 :=
      if cpu_only then s
      else
        let r := InitializeNvmlMetrics o
        { s with tracked := s.tracked ++ r.tracked,
                 sampler_started := s.sampler_started || r.sampler_started }
    { state := { s1 with gpu_metrics_enabled := true },
      discovery_ran := !cpu_only }

/-- A serialized sequence of `EnableGPUMetrics` calls (the enabling mutex
serializes concurrent callers): final state and how many calls ran
discovery. -/
def runEnableCalls (s : MetricsState) :
    List (Bool × InitOracle) → MetricsState × Nat
  | [] => (s, 0)
  | c :: cs =>
      let r := EnableGPUMetrics s c.1 c.2
      let rest := runEnableCalls r.state cs
      (rest.1, (if r.discovery_ran then 1 else 0) + rest.2)

/-- Fresh singleton state: GPU metrics disabled, nothing tracked. -/
def initMetricsState : MetricsState :=
  { gpu_metrics_enabled := false, tracked := [], sampler_started := false }

/-- Oracles seen by one `Metrics::UUIDForCudaDevice` call for a given
device index: success of `cudaDeviceGetPCIBusId`, of
`nvmlDeviceGetHandleByPciBusId_v2`, and the `nvmlDeviceGetUUID` result. -/
structure UuidOracle where
  busid_ok : Bool
  handle_ok : Bool
  uuid : Option String
deriving DecidableEq, Repr

/-- `Metrics::UUIDForCudaDevice`: silently fails when the GPU-metrics
flag is unset; then the bus-ID lookup, the handle resolution and the UUID
read must all succeed for the UUID to be returned.  The function reads
only the enabled flag and the per-call oracles — it takes no sampler
state, so it cannot block on the sampler task. -/
def UUIDForCudaDevice (enabled : Bool) (o : UuidOracle) : Option String :=
  if enabled = false then none
  else if o.busid_ok = false then none
  else if o.handle_ok = false then none
  else o.uuid

/-- Trace model of the sampler loop
`while (!nvml_thread_exit_.load()) { sleep 2000ms; sample all devices }`
together with the teardown join: `loopState flag orc ss n` is the sampler
state after the loop's first `n` flag checks, where `flag i` is the value
the atomic exit flag holds at the i-th check and `orc i` the hardware
readouts of round `i`.  A check that observes `true` makes the loop body
unreachable, so the state is frozen from that check on. -/
def loopState (flag : Nat → Bool) (orc : Nat → List DevOracle)
    (ss : List DevState) : Nat → List DevState
  | 0 => ss
  | n + 1 =>
      if flag n then loopState flag orc ss n
      else sampleRound (loopState flag orc ss n) (orc n)

/-- Every `EnableGPUMetrics` call leaves the GPU-metrics flag set. -/
lemma EnableGPUMetrics_sets_flag (s : MetricsState) (c : Bool) (o : InitOracle) :
    (EnableGPUMetrics s c o).state.gpu_metrics_enabled = true := by
  unfold EnableGPUMetrics
  split
  · assumption
  · rfl

/-- An already-enabled state makes every call an early-return no-op. -/
lemma EnableGPUMetrics_enabled (s : MetricsState) (c : Bool) (o : InitOracle)
    (h : s.gpu_metrics_enabled = true) :
    EnableGPUMetrics s c o = { state := s, discovery_ran := false } := by
  unfold EnableGPUMetrics
  rw [if_pos h]

/-- From an enabled state, no call in a serialized sequence runs discovery. -/
lemma runEnableCalls_enabled (cs : List (Bool × InitOracle)) :
    ∀ s : MetricsState, s.gpu_metrics_enabled = true →
      (runEnableCalls s cs).2 = 0 := by
  induction cs with
  | nil => intro s _; rfl
  | cons c cs ih =>
      intro s h
      simp [runEnableCalls, EnableGPUMetrics_enabled s c.1 c.2 h, ih s h]

/-- C3: once the GPU-metrics enabled flag is set, every later call to
`EnableGPUMetrics` returns early with the state unchanged and without
running discovery or starting a sampler; every call leaves the flag set;
hence over any serialized sequence of calls (the enabling mutex
serializes concurrent callers) the discovery/start sequence runs at most
once. -/
theorem c3_enable_at_most_once :
    (∀ (s : MetricsState) (c : Bool) (o : InitOracle),
        s.gpu_metrics_enabled = true →
          EnableGPUMetrics s c o = { state := s, discovery_ran := false }) ∧
      (∀ (s : MetricsState) (c : Bool) (o : InitOracle),
          (EnableGPUMetrics s c o).state.gpu_metrics_enabled = true) ∧
      (∀ (s : MetricsState) (calls : List (Bool × InitOracle)),
          (runEnableCalls s calls).2 ≤ 1) := by
  refine ⟨EnableGPUMetrics_enabled, EnableGPUMetrics_sets_flag, fun s calls => ?_⟩
  cases calls with
  | nil => simp [runEnableCalls]
  | cons c cs =>
      have h0 := runEnableCalls_enabled cs (EnableGPUMetrics s c.1 c.2).state
        (EnableGPUMetrics_sets_flag s c.1 c.2)
      simp only [runEnableCalls, h0, Nat.add_zero]
      split <;> decide

/-- Oracle for a run whose hardware initialization succeeds and reports
no devices. -/
def oracleInitOk : InitOracle :=
  { nvmlInit_ok := true, getDeviceCount_ok := true, devices := [] }

/-- A singleton state with the GPU-metrics flag already set. -/
def enabledState : MetricsState :=
  { gpu_metrics_enabled := true, tracked := [], sampler_started := false }

/-- C3 witness: a second call from an enabled state is an exact no-op,
and a serialized pair of calls runs discovery at most once. -/
theorem c3_enable_at_most_once_witness :
    EnableGPUMetrics enabledState false oracleInitOk =
        { state := enabledState, discovery_ran := false } ∧
      (runEnableCalls initMetricsState
        [(false, oracleInitOk), (false, oracleInitOk)]).2 ≤ 1 :=
  ⟨c3_enable_at_most_once.1 enabledState false oracleInitOk rfl,
   c3_enable_at_most_once.2.2 initMetricsState
     [(false, oracleInitOk), (false, oracleInitOk)]⟩

/-- Oracle for a run on which `nvmlInit` fails. -/
def oracleInitFail : InitOracle :=
  { nvmlInit_ok := false, getDeviceCount_ok := true, devices := [] }

/-- C4 counterexample: when `nvmlInit` fails, `InitializeNvmlMetrics`
does return false, but `EnableGPUMetrics` ignores that return value and
still sets the GPU-metrics enabled flag to true — contradicting the
claim that the enabled state is not set. -/
theorem c4_counterexample :
    (InitializeNvmlMetrics oracleInitFail).ok = false ∧
      (EnableGPUMetrics initMetricsState false oracleInitFail).state.gpu_metrics_enabled
        = true :=
  ⟨rfl, rfl⟩

/-- C4 (amended): if `nvmlInit` or the device-count query fails,
`InitializeNvmlMetrics` returns false with no devices tracked, no sampler
started, and the failure logged as a warning (the function returns
normally — never fatal); however `EnableGPUMetrics` still sets the
GPU-metrics enabled flag to true, leaving the device list and sampler
state unchanged. -/
theorem c4_init_failure :
    ∀ o : InitOracle, o.nvmlInit_ok = false ∨ o.getDeviceCount_ok = false →
      (InitializeNvmlMetrics o).ok = false ∧
        (InitializeNvmlMetrics o).tracked = [] ∧
        (InitializeNvmlMetrics o).sampler_started = false ∧
        (InitializeNvmlMetrics o).logs = [LogLevel.warning] ∧
        (∀ s : MetricsState, s.gpu_metrics_enabled = false →
          (EnableGPUMetrics s false o).state =
            { s with gpu_metrics_enabled := true }) := by
  intro o ho
  have h1 : InitializeNvmlMetrics o =
      { ok := false, tracked := [], sampler_started := false,
        logs := [LogLevel.warning] } := by
    rcases ho with h | h
    · simp [InitializeNvmlMetrics, h]
    · cases hh : o.nvmlInit_ok <;> simp [InitializeNvmlMetrics, h, hh]
  refine ⟨by rw [h1], by rw [h1], by rw [h1], by rw [h1], fun s hs => ?_⟩
  simp [EnableGPUMetrics, hs, h1]

/-- C4 witness: the amended behavior at the concrete failing oracle. -/
theorem c4_init_failure_witness :
    (InitializeNvmlMetrics oracleInitFail).ok = false ∧
      (EnableGPUMetrics initMetricsState false oracleInitFail).state =
        { initMetricsState with gpu_metrics_enabled := true } :=
  ⟨(c4_init_failure oracleInitFail (Or.inl rfl)).1,
   (c4_init_failure oracleInitFail (Or.inl rfl)).2.2.2.2 initMetricsState rfl⟩

/-- C5: with the CPU-only environment override present, a first call to
`EnableGPUMetrics` skips discovery, sets the enabled flag, changes
nothing else (from the fresh state: zero devices tracked and no sampler
started), and every later call is an exact no-op. -/
theorem c5_cpu_only :
    ∀ (s : MetricsState) (o : InitOracle), s.gpu_metrics_enabled = false →
      (EnableGPUMetrics s true o).state = { s with gpu_metrics_enabled := true } ∧
        (EnableGPUMetrics s true o).discovery_ran = false ∧
        (EnableGPUMetrics initMetricsState true o).state =
          { gpu_metrics_enabled := true, tracked := [], sampler_started := false } ∧
        (∀ (c : Bool) (o2 : InitOracle),
          EnableGPUMetrics (EnableGPUMetrics s true o).state c o2 =
            { state := (EnableGPUMetrics s true o).state,
              discovery_ran := false }) := by
  intro s o hs
  have h1 : EnableGPUMetrics s true o =
      { state := { s with gpu_metrics_enabled := true }, discovery_ran := false } := by
    simp [EnableGPUMetrics, hs]
  refine ⟨by rw [h1], by rw [h1],
    by simp [EnableGPUMetrics, initMetricsState], fun c o2 => ?_⟩
  rw [h1]
  exact EnableGPUMetrics_enabled _ c o2 rfl

/-- C5 witness: the CPU-only call at the fresh state, and a second call
being a no-op. -/
theorem c5_cpu_only_witness :
    (EnableGPUMetrics initMetricsState true oracleInitOk).state =
        { initMetricsState with gpu_metrics_enabled := true } ∧
      EnableGPUMetrics (EnableGPUMetrics initMetricsState true oracleInitOk).state
          false oracleInitOk =
        { state := (EnableGPUMetrics initMetricsState true oracleInitOk).state,
          discovery_ran := false } :=
  ⟨(c5_cpu_only initMetricsState oracleInitOk rfl).1,
   (c5_cpu_only initMetricsState oracleInitOk rfl).2.2.2 false oracleInitOk⟩

/-- C6 (amended): during enumeration a failure of the device-properties
read, the bus-ID read, or the handle resolution causes that single device
to be skipped while enumeration continues with the remaining indices; a
UUID read failure does not skip the device — it is tracked under the
placeholder identity "unknown". -/
theorem c6_enumeration_isolation :
    (∀ e : DevEnum,
        e.props_ok = false ∨ e.busid_ok = false ∨ e.handle_ok = false →
          enumerateDevice e = none) ∧
      (∀ e : DevEnum, e.props_ok = true → e.busid_ok = true → e.handle_ok = true →
          enumerateDevice e = some { uuid := e.uuid.getD "unknown" }) ∧
      (∀ (pre post : List DevEnum) (e : DevEnum),
          (pre ++ e :: post).filterMap enumerateDevice =
            pre.filterMap enumerateDevice ++ (enumerateDevice e).toList ++
              post.filterMap enumerateDevice) ∧
      (∀ o : InitOracle, o.nvmlInit_ok = true → o.getDeviceCount_ok = true →
          (InitializeNvmlMetrics o).tracked = o.devices.filterMap enumerateDevice) := by
  refine ⟨fun e h => ?_, fun e h1 h2 h3 => ?_, fun pre post e => ?_,
    fun o h1 h2 => ?_⟩
  · rcases h with h | h | h <;> simp [enumerateDevice, h]
  · simp [enumerateDevice, h1, h2, h3]
  · cases he : enumerateDevice e <;>
      simp [List.filterMap_append, List.filterMap_cons, he]
  · simp [InitializeNvmlMetrics, h1, h2]

/-- A device whose properties, bus-ID and handle steps succeed but whose
UUID read fails. -/
def uuidFailDev : DevEnum :=
  { props_ok := true, busid_ok := true, handle_ok := true, name_ok := true,
    uuid := none }

/-- C6 counterexample: the claim says a UUID read failure skips the
device; in fact the device is tracked, under the placeholder "unknown". -/
theorem c6_counterexample :
    (InitializeNvmlMetrics
        { nvmlInit_ok := true, getDeviceCount_ok := true,
          devices := [uuidFailDev] }).tracked = [{ uuid := "unknown" }] ∧
      (InitializeNvmlMetrics
        { nvmlInit_ok := true, getDeviceCount_ok := true,
          devices := [uuidFailDev] }).tracked ≠ [] := by
  refine ⟨rfl, ?_⟩
  decide

/-- C6 witness: the amended behavior at concrete inputs. -/
theorem c6_enumeration_isolation_witness :
    enumerateDevice uuidFailDev = some { uuid := uuidFailDev.uuid.getD "unknown" } ∧
      (InitializeNvmlMetrics oracleInitOk).tracked =
        oracleInitOk.devices.filterMap enumerateDevice :=
  ⟨c6_enumeration_isolation.2.1 uuidFailDev rfl rfl rfl,
   c6_enumeration_isolation.2.2.2 oracleInitOk rfl rfl⟩

/-- C7: `UUIDForCudaDevice` fails closed: it returns `none` whenever GPU
metrics are not enabled, and `none` whenever the bus-ID lookup, the
handle resolution, or the UUID read fails; it returns a UUID exactly when
the flag is set and all three steps succeed (and, being a pure function
of the flag and the per-call oracles, it never touches sampler state). -/
theorem c7_uuid_fails_closed :
    (∀ o : UuidOracle, UUIDForCudaDevice false o = none) ∧
      (∀ (en : Bool) (o : UuidOracle),
          o.busid_ok = false ∨ o.handle_ok = false ∨ o.uuid = none →
            UUIDForCudaDevice en o = none) ∧
      (∀ (en : Bool) (o : UuidOracle) (u : String),
          UUIDForCudaDevice en o = some u ↔
            en = true ∧ o.busid_ok = true ∧ o.handle_ok = true ∧
              o.uuid = some u) := by
  refine ⟨fun o => rfl, fun en o h => ?_, fun en o u => ?_⟩
  · rcases h with h | h | h <;> cases en <;> simp [UUIDForCudaDevice, h]
  · cases en <;> cases hb : o.busid_ok <;> cases hh : o.handle_ok <;>
      simp [UUIDForCudaDevice, hb, hh]

/-- An oracle whose handle resolution fails. -/
def uuidOracleFail : UuidOracle :=
  { busid_ok := true, handle_ok := false, uuid := some "GPU-feedbeef" }

/-- C7 witness: a failing handle resolution yields not-ok even with the
flag enabled. -/
theorem c7_uuid_fails_closed_witness :
    UUIDForCudaDevice true uuidOracleFail = none :=
  c7_uuid_fails_closed.2.1 true uuidOracleFail (Or.inr (Or.inl rfl))

/-- C9: in the trace model of the sampler loop with a monotone exit flag
(once stored true it stays true), a round executes exactly when its flag
check observes false — so the flag is consulted at every iteration
boundary, a flag that never becomes true lets every round run (the flag
is the only termination), and from the first check that observes true the
state is frozen forever: the round in flight when the flag is stored is
the at-most-one extra round, the join then returns, and no sampler write
happens afterwards. -/
theorem c9_cooperative_exit :
    ∀ (flag : Nat → Bool) (orc : Nat → List DevOracle) (ss : List DevState),
      (∀ i j, i ≤ j → flag i = true → flag j = true) →
      (∀ n, flag n = false →
          loopState flag orc ss (n + 1) =
            sampleRound (loopState flag orc ss n) (orc n)) ∧
        (∀ n, flag n = true → ∀ m, n ≤ m →
          loopState flag orc ss m = loopState flag orc ss n) := by
  intro flag orc ss hmono
  refine ⟨fun n hn => by simp [loopState, hn], fun n hn m hm => ?_⟩
  induction hm with
  | refl => rfl
  | step hm ih =>
      rename_i k
      simp only [loopState]
      rw [if_pos (hmono n k hm hn)]
      exact ih

/-- Exit-flag schedule that is false at check 0 and true from check 1. -/
def c9flag : Nat → Bool := fun i => decide (1 ≤ i)

/-- Round oracles for the loop witness: every read fails every round. -/
def c9orc : Nat → List DevOracle := fun _ => [oracleAllFail]

/-- C9 witness: with the concrete schedule, round 0 executes and the
state is frozen from check 1 on. -/
theorem c9_cooperative_exit_witness :
    loopState c9flag c9orc [initDevState] 1 =
        sampleRound (loopState c9flag c9orc [initDevState] 0) (c9orc 0) ∧
      loopState c9flag c9orc [initDevState] 3 =
        loopState c9flag c9orc [initDevState] 1 :=
  ⟨(c9_cooperative_exit c9flag c9orc [initDevState]
      (fun i j hij hi => by
        simp only [c9flag, decide_eq_true_eq] at hi ⊢
        omega)).1 0 (by decide),
   (c9_cooperative_exit c9flag c9orc [initDevState]
      (fun i j hij hi => by
        simp only [c9flag, decide_eq_true_eq] at hi ⊢
        omega)).2 1 (by decide) 3 (by decide)⟩

end Metrics
